import Mathlib

/-!
Verification development for the endorbot repository (src/main.rs, src/ml.rs).

The Rust source is shallowly embedded in Lean:
* `u32`/`u16` values are `Nat`; the only subtractions that can underflow are
  embedded with checked semantics (`Option`, `none` = the panic Rust raises in
  debug builds), and additions never approach `2^32` in the embedded code paths.
* Panics (`unwrap`, explicit `panic!`) are embedded as `none` of an `Option`
  result type.
* The random choice `tiles.choose(&mut rng)` from the rand crate is embedded as
  an explicit selector argument `choose : List Tile → Option Tile`; the real
  selector returns `some` of a uniformly random element for a nonempty list and
  `none` for an empty one.
* The `astar` function of the external pathfinding crate is embedded as an
  executable breadth-first search over the same successor graph with the same
  some/none contract: it yields a result exactly when a goal is reachable.
* Screen taps, OCR and file I/O are external side effects and are dropped;
  pixel data arrives as the sampled `Bitmap` exactly as in the source.
-/

namespace Endorbot

/-- One RGB pixel color, a `[u8; 3]` in the source. -/
structure RGB where
  r : Nat
  g : Nat
  b : Nat
deriving DecidableEq, Repr

/-- `color.iter().all(p)` over the three channels. -/
def RGB.all (c : RGB) (p : Nat → Bool) : Bool :=
  p c.r && p c.g && p c.b

/-- Grid coordinates (`Coords` in ml.rs, two `u32` fields). -/
structure Coords where
  x : Nat
  y : Nat
deriving DecidableEq, Repr

/-- `DungeonInfo` from ml.rs. -/
structure DungeonInfo where
  floor : String
  coordinates : Option Coords
deriving DecidableEq, Repr

/-- The sparse pixel sample (`Bitmap` in ml.rs). -/
structure Bitmap where
  pixels : List (Nat × Nat × RGB)
  has_dead_characters : Bool
  info : DungeonInfo
deriving DecidableEq, Repr

/-- `Bitmap::get_pixel`.  A missing pixel panics in release builds and falls
back to black in debug builds; the debug fallback is embedded. -/
def Bitmap.get_pixel (image : Bitmap) (x y : Nat) : RGB :=
  match image.pixels.find? (fun e => decide (e.1 = x ∧ e.2.1 = y)) with
  | some e => e.2.2
  | none => ⟨0, 0, 0⟩

/-- `Health` from ml.rs. -/
inductive Health where
  | unknown
  | dead
  | low
  | hurt
  | healthy
deriving DecidableEq, Repr

/-- `Character` from ml.rs. -/
structure Character where
  health : Health
deriving DecidableEq, Repr

/-- `Enemy` from ml.rs. -/
structure Enemy where
  health : Health
deriving DecidableEq, Repr

/-- `Tile` from ml.rs. -/
structure Tile where
  explored : Bool
  trap : Bool
  is_city : Bool
  is_go_down : Bool
  visited : Bool
  position : Coords
  north_passable : Bool
  east_passable : Bool
  south_passable : Bool
  west_passable : Bool
deriving DecidableEq, Repr

/-- `DungeonState` from ml.rs. -/
inductive DungeonState where
  | idle (on_city_tile : Bool)
  | idleChest
  | fight (enemy : Enemy)
deriving DecidableEq, Repr

/-- `Dungeon` from ml.rs.  The `[Character; 4]` roster is embedded as a list
(built with length 4 everywhere in the source). -/
structure Dungeon where
  state : DungeonState
  characters : List Character
  info : DungeonInfo
  tiles : List Tile
deriving DecidableEq, Repr

/-- `StateType` from ml.rs. -/
inductive StateType where
  | ad
  | main
  | city (has_dead_characters : Bool)
  | dungeon
  | teleportToCity
deriving DecidableEq, Repr

/-- `State` from ml.rs. -/
structure State where
  state_type : StateType
  dungeon : Dungeon
deriving DecidableEq, Repr

/-- `Dungeon::default()`. -/
def Dungeon.default : Dungeon :=
  { state := .idle false
    characters := [⟨.unknown⟩, ⟨.unknown⟩, ⟨.unknown⟩, ⟨.unknown⟩]
    info := { floor := "", coordinates := none }
    tiles := [] }

/-- `State::default()`. -/
def State.default : State :=
  { state_type := .main, dungeon := Dungeon.default }

/-- `Into::<State>::into(state_type)` from ml.rs. -/
def StateType.intoState (t : StateType) : State :=
  { state_type := t, dungeon := Dungeon.default }

/-- `State::get_position`. -/
def State.get_position (s : State) : Option Coords :=
  s.dungeon.info.coordinates

/-- `State::set_position`. -/
def State.set_position (s : State) (new_position : Coords) : State :=
  { s with dungeon := { s.dungeon with
      info := { s.dungeon.info with coordinates := some new_position } } }

/-- The in-place update performed by `State::merge` on the first tile of the
new grid whose position matches the old tile `t`; `none` when no tile
matches.  `cityNone`/`downNone` record `city_tile.is_none()` and
`down_tile.is_none()` computed from the new grid before the loop. -/
def mergeUpdateFirst (cityNone downNone : Bool) (t : Tile) :
    List Tile → Option (List Tile)
  | [] => none
  | c :: rest =>
    if c.position = t.position then
      some ({ c with
        is_city := if cityNone then t.is_city || c.is_city else c.is_city
        is_go_down := if downNone then t.is_go_down || c.is_go_down else c.is_go_down
        visited := t.visited || c.visited } :: rest)
    else
      (mergeUpdateFirst cityNone downNone t rest).map (c :: ·)

/-- One iteration of the loop in `State::merge`: either fold the old tile `t`
into the matching new tile, or push it (with its markers cleared when the new
grid already carries one). -/
def mergeStep (cityNone downNone : Bool) (acc : List Tile) (t : Tile) : List Tile :=
  match mergeUpdateFirst cityNone downNone t acc with
  | some acc2 => acc2
  | none =>
    acc ++ [{ t with
      is_city := if cityNone then t.is_city else false
      is_go_down := if downNone then t.is_go_down else false }]

/-- `State::merge`: `self` is the freshly classified state, `old` the previous
tick's state; returns the merged state (the mutated `self`). -/
def State.merge (self old : State) : State :=
  let cityNone := (self.dungeon.tiles.find? (fun tile => tile.is_city)).isNone
  let downNone := (self.dungeon.tiles.find? (fun tile => tile.is_go_down)).isNone
  { self with dungeon := { self.dungeon with
      tiles := old.dungeon.tiles.foldl (mergeStep cityNone downNone) self.dungeon.tiles } }

/-- `MoveDirection` from ml.rs. -/
inductive MoveDirection where
  | north
  | east
  | south
  | west
deriving DecidableEq, Repr

/-- `Coords::move_direction`.  The source offsets with unchecked `u32`
arithmetic; the two subtractions underflow at the axis origin (a panic in
debug builds), embedded as `none`. -/
def Coords.move_direction (c : Coords) : MoveDirection → Option Coords
  | .north => if c.y = 0 then none else some ⟨c.x, c.y - 1⟩
  | .east => some ⟨c.x + 1, c.y⟩
  | .south => some ⟨c.x, c.y + 1⟩
  | .west => if c.x = 0 then none else some ⟨c.x - 1, c.y⟩

/-- `Tile::direction_from`. -/
def Tile.direction_from (self other : Tile) : MoveDirection :=
  if self.position.x = other.position.x then
    if other.position.y < self.position.y then .south else .north
  else if self.position.x < other.position.x then .west
  else .east

/-- `Action` from ml.rs. -/
inductive Action where
  | closeAd
  | gotoTown
  | gotoDungeon
  | goDown
  | cancelTeleportToCity
  | teleportToCity
  | findFight (direction : MoveDirection) (target : Tile × Nat)
  | fight
  | openChest
  | returnToTown (on_city_tile : Bool) (direction : MoveDirection)
  | resurrect
deriving DecidableEq, Repr

/-- `RandomTarget` from ml.rs. -/
inductive RandomTarget where
  | goDown
  | city
  | unexplored
deriving DecidableEq, Repr

/-- `Dungeon::has_low_character`. -/
def Dungeon.has_low_character (d : Dungeon) : Bool :=
  d.characters.any (fun v => v.health = Health.low)

/-- `Dungeon::has_dead_character`. -/
def Dungeon.has_dead_character (d : Dungeon) : Bool :=
  d.characters.any (fun v => v.health = Health.dead)

/-- `Dungeon::get_tile`: the stored tile at `(x, y)`, or a synthetic
fully-passable unexplored unvisited tile for a never-sampled coordinate. -/
def Dungeon.get_tile (d : Dungeon) (x y : Nat) : Tile :=
  match d.tiles.find? (fun t => decide (t.position.x = x ∧ t.position.y = y)) with
  | some t => t
  | none =>
    { explored := false, trap := false, is_city := false, is_go_down := false
      visited := false, position := ⟨x, y⟩
      north_passable := true, east_passable := true
      south_passable := true, west_passable := true }

/-- `Dungeon::get_current_tile` (`unwrap`s the coordinates; `none` = panic). -/
def Dungeon.get_current_tile (d : Dungeon) : Option Tile :=
  d.info.coordinates.map (fun c => d.get_tile c.x c.y)

/-- `Dungeon::get_city_tile`. -/
def Dungeon.get_city_tile (d : Dungeon) : Option Tile :=
  d.tiles.find? (fun t => t.is_city)

/-- `Dungeon::get_go_down_tile`. -/
def Dungeon.get_go_down_tile (d : Dungeon) : Option Tile :=
  d.tiles.find? (fun t => t.is_go_down)

/-- `Dungeon::set_tile_visited`. -/
def Dungeon.set_tile_visited (d : Dungeon) (x y : Nat) : Dungeon :=
  { d with tiles := d.tiles.map (fun t =>
      if t.position.x = x ∧ t.position.y = y then { t with visited := true } else t) }

/-- `Dungeon::clear_visited`. -/
def Dungeon.clear_visited (d : Dungeon) : Dungeon :=
  { d with tiles := d.tiles.map (fun t => { t with visited := false }) }

/-- The successor closure of `Dungeon::get_next_tile_to_goal`: neighbours the
current tile's own passability flags allow, clamped to the `[0, 29]`
playfield on each axis, in the source's push order north, east, south, west. -/
def Dungeon.goal_successors (d : Dungeon) (p : Coords) : List Coords :=
  let tile := d.get_tile p.x p.y
  (if tile.north_passable && decide (0 < p.y) then [⟨p.x, p.y - 1⟩] else []) ++
  (if tile.east_passable && decide (p.x < 29) then [⟨p.x + 1, p.y⟩] else []) ++
  (if tile.south_passable && decide (p.y < 29) then [⟨p.x, p.y + 1⟩] else []) ++
  (if tile.west_passable && decide (0 < p.x) then [⟨p.x - 1, p.y⟩] else [])

/-- Breadth-first layer expansion carrying, for each frontier node, the first
step taken from the start; embeds the external `astar` call of
`get_next_tile_to_goal` (uniform edge cost, so the found path is shortest). -/
def goalSearch (d : Dungeon) (goal : Coords) :
    Nat → List (Coords × Coords) → List Coords → Option Coords
  | 0, _, _ => none
  | fuel + 1, frontier, seen =>
    match frontier.find? (fun pr => decide (pr.1 = goal)) with
    | some pr => some pr.2
    | none =>
      let next := frontier.foldl (fun acc pr =>
        acc ++ ((d.goal_successors pr.1).filterMap (fun q =>
          if q ∈ seen ∨ q ∈ (acc.map Prod.fst) then none else some (q, pr.2)))) []
      if next.isEmpty then none
      else goalSearch d goal fuel next (seen ++ next.map Prod.fst)

/-- `Dungeon::get_next_tile_to_goal`: the current tile when already at the
goal, otherwise the second node of a shortest path (`path.get(1)`), or `none`
when the goal is unreachable under the current passability knowledge. -/
def Dungeon.get_next_tile_to_goal (d : Dungeon) (current_tile goal : Tile) : Option Tile :=
  if current_tile.position = goal.position then some current_tile
  else
    let first := (d.goal_successors current_tile.position).map (fun q => (q, q))
    (goalSearch d goal.position 901 first
        (current_tile.position :: first.map Prod.fst)).map
      (fun q => d.get_tile q.x q.y)

/-- The successor closure of `Dungeon::get_closest_unvisited_tile`: unlike the
goal search it has no upper playfield clamp (only the two `pos > 0` guards of
the source). -/
def Dungeon.unvisited_successors (d : Dungeon) (p : Coords) : List Coords :=
  let tile := d.get_tile p.x p.y
  (if tile.north_passable && decide (0 < p.y) then [⟨p.x, p.y - 1⟩] else []) ++
  (if tile.east_passable then [⟨p.x + 1, p.y⟩] else []) ++
  (if tile.south_passable then [⟨p.x, p.y + 1⟩] else []) ++
  (if tile.west_passable && decide (0 < p.x) then [⟨p.x - 1, p.y⟩] else [])

/-- Successors of every coordinate in a list, concatenated. -/
def Dungeon.successorsOfAll (d : Dungeon) : List Coords → List Coords
  | [] => []
  | p :: rest => d.unvisited_successors p ++ d.successorsOfAll rest

/-- One saturation round of the unvisited-tile search: grow the reached set by
the successors of its visited members (an unvisited member is a goal and is
never expanded, exactly as the source's `astar` stops at the first goal). -/
def Dungeon.closureStep (d : Dungeon) (seen : List Coords) : List Coords :=
  seen ++ ((d.successorsOfAll
      (seen.filter (fun p => (d.get_tile p.x p.y).visited))).dedup.filter
    (fun q => decide (¬ q ∈ seen)))

/-- Iterated saturation rounds. -/
def Dungeon.closureIter (d : Dungeon) : Nat → List Coords → List Coords
  | 0, seen => seen
  | n + 1, seen => d.closureIter n (d.closureStep seen)

/-- `Dungeon::get_closest_unvisited_tile`: embeds the zero-heuristic `astar`
call as reached-set saturation; `d.tiles.length + 2` rounds are provably
enough to reach a fixpoint whenever no unvisited tile is reachable. -/
def Dungeon.get_closest_unvisited_tile (d : Dungeon) (current_tile : Tile) : Option Tile :=
  let seen := d.closureIter (d.tiles.length + 2) [current_tile.position]
  (seen.find? (fun p => !(d.get_tile p.x p.y).visited)).map
    (fun p => d.get_tile p.x p.y)

/-- `Dungeon::has_unexplored_neighbour` (this one guards its subtractions). -/
def Dungeon.has_unexplored_neighbour (d : Dungeon) (tile : Tile) : Bool :=
  (tile.north_passable && decide (0 < tile.position.y) &&
    !(d.get_tile tile.position.x (tile.position.y - 1)).explored) ||
  (tile.south_passable &&
    !(d.get_tile tile.position.x (tile.position.y + 1)).explored) ||
  (tile.east_passable &&
    !(d.get_tile (tile.position.x + 1) tile.position.y).explored) ||
  (tile.west_passable && decide (0 < tile.position.x) &&
    !(d.get_tile (tile.position.x - 1) tile.position.y).explored)

/-- The inline unexplored-neighbour test of `RandomTarget::Unexplored` inside
`get_random_tile_from_current` (lines 580-583); its `u32` subtractions are
unguarded in the source (a debug-build panic at the grid edge) and are
embedded with truncated subtraction, which no verified claim evaluates at
coordinate 0. -/
def Dungeon.unexploredDirectionTest (d : Dungeon) (tile : Tile) : Bool :=
  (tile.north_passable &&
    !(d.get_tile tile.position.x (tile.position.y - 1)).explored) ||
  (tile.south_passable &&
    !(d.get_tile tile.position.x (tile.position.y + 1)).explored) ||
  (tile.east_passable &&
    !(d.get_tile (tile.position.x + 1) tile.position.y).explored) ||
  (tile.west_passable &&
    !(d.get_tile (tile.position.x - 1) tile.position.y).explored)

/-- One neighbour candidate of `get_random_tile_from_current`: present when
the edge is passable and the tile carries no city/staircase marker; `none`
only on the unguarded `u32` underflow (the current position sits on the axis
origin with that edge passable), a panic in the source. -/
def Dungeon.neighbourCandidate (d : Dungeon) (passable : Bool) (p : Coords)
    (dir : MoveDirection) : Option (List Tile) :=
  if passable then
    match p.move_direction dir with
    | some q =>
      let tile := d.get_tile q.x q.y
      if tile.is_city || tile.is_go_down then some [] else some [tile]
    | none => none
  else some []

/-- The avoid-position stage of `get_random_tile_from_current`: drop the tile
the agent just came from, but only when more than one candidate remains. -/
def avoidFilter (avoid_position : Option Coords) (tiles : List Tile) : List Tile :=
  match avoid_position with
  | some a =>
    if 1 < tiles.length then tiles.filter (fun tile => decide (¬ tile.position = a))
    else tiles
  | none => tiles

/-- The `RandomTarget` narrowing stage of `get_random_tile_from_current`,
applied only when more than one candidate remains. -/
def targetNarrow (d : Dungeon) (random_target : RandomTarget)
    (tiles : List Tile) : List Tile :=
  if 1 < tiles.length then
    match random_target with
    | .goDown =>
      match tiles.find? (fun tile => tile.is_go_down) with
      | some tile => [tile]
      | none => tiles
    | .city =>
      match tiles.find? (fun tile => tile.is_city) with
      | some tile => [tile]
      | none => tiles
    | .unexplored =>
      let unexplored_tiles := tiles.filter (fun tile => d.unexploredDirectionTest tile)
      if unexplored_tiles.isEmpty then tiles else unexplored_tiles
  else tiles

/-- The candidate list built by `Dungeon::get_random_tile_from_current` after
the avoid-position filter and the `RandomTarget` narrowing; the caller draws
uniformly from it.  `none` embeds the panics (unknown current position or
the underflow of an unguarded neighbour offset). -/
def Dungeon.get_random_tile_list (d : Dungeon) (avoid_position : Option Coords)
    (random_target : RandomTarget) : Option (List Tile) := do
  let current ← d.get_current_tile
  let n ← d.neighbourCandidate current.north_passable current.position .north
  let e ← d.neighbourCandidate current.east_passable current.position .east
  let s ← d.neighbourCandidate current.south_passable current.position .south
  let w ← d.neighbourCandidate current.west_passable current.position .west
  some (targetNarrow d random_target (avoidFilter avoid_position (n ++ e ++ s ++ w)))

/-- `Dungeon::get_random_tile_from_current`: draw from the candidate list;
`choose` embeds `tiles.choose(&mut rng)`, and the trailing `.unwrap()` panic
on an empty list is the `none` of `choose`. -/
def Dungeon.get_random_tile_from_current (d : Dungeon) (avoid_position : Option Coords)
    (random_target : RandomTarget) (choose : List Tile → Option Tile) : Option Tile :=
  (d.get_random_tile_list avoid_position random_target).bind choose

/-- `Dungeon::get_unexplored_tile`: nearest unvisited tile, then the four
direct unexplored neighbours (west, east, north, south order), then a random
tile with an unexplored neighbour, then the random fallback. -/
def Dungeon.get_unexplored_tile (d : Dungeon) (old_position : Option Coords)
    (choose : List Tile → Option Tile) : Option Tile := do
  let me ← d.get_current_tile
  match d.get_closest_unvisited_tile me with
  | some tile => some tile
  | none =>
    let wTile :=
      if me.west_passable && decide (0 < me.position.x) then
        let tile := d.get_tile (me.position.x - 1) me.position.y
        if tile.explored then none else some tile
      else none
    match wTile with
    | some tile => some tile
    | none =>
    let eTile :=
      if me.east_passable then
        let tile := d.get_tile (me.position.x + 1) me.position.y
        if tile.explored then none else some tile
      else none
    match eTile with
    | some tile => some tile
    | none =>
    let nTile :=
      if me.north_passable && decide (0 < me.position.y) then
        let tile := d.get_tile me.position.x (me.position.y - 1)
        if tile.explored then none else some tile
      else none
    match nTile with
    | some tile => some tile
    | none =>
    let sTile :=
      if me.south_passable then
        let tile := d.get_tile me.position.x (me.position.y + 1)
        if tile.explored then none else some tile
      else none
    match sTile with
    | some tile => some tile
    | none =>
    match choose (d.tiles.filter (fun tile => d.has_unexplored_neighbour tile)) with
    | some tile => some tile
    | none => d.get_random_tile_from_current old_position .unexplored choose

/-- The shared return-to-town logic of `determine_action` (duplicated verbatim
in the source between the `Idle`-with-dead-character branch and the
`Fight`-retreat branch): path towards the known city tile, else head for a
random passable neighbour. -/
def returnTownAction (dungeon : Dungeon) (choose : List Tile → Option Tile) :
    Option Action := do
  match dungeon.get_city_tile with
  | some city_tile => do
    let current ← dungeon.get_current_tile
    match dungeon.get_next_tile_to_goal current city_tile with
    | some next_tile => some (.returnToTown false (next_tile.direction_from current))
    | none => do
      let tile ← dungeon.get_random_tile_from_current none .city choose
      some (.returnToTown false (tile.direction_from current))
  | none => do
    let current ← dungeon.get_current_tile
    let tile ← dungeon.get_random_tile_from_current none .city choose
    some (.returnToTown false (tile.direction_from current))

/-- The exploration tail of the `Dungeon`/`Idle` branch of `determine_action`
(after the dead-character and staircase-down early returns): target
stickiness, the stuck counter, staircase preemption, pathing, fallback. -/
def idleExploreAction (dungeon : Dungeon) (last_action : Action)
    (old_position : Option Coords) (choose : List Tile → Option Tile)
    (current : Tile) : Option Action := do
  let picked ←
    match last_action with
    | .findFight _ (target_tile, ticks_same_target) =>
      if target_tile.position = current.position then
        (dungeon.get_unexplored_tile old_position choose).map (fun t => (t, 1))
      else some (target_tile, ticks_same_target + 1)
    | _ => (dungeon.get_unexplored_tile old_position choose).map (fun t => (t, 1))
  let picked ←
    if 30 < picked.2 then
      (dungeon.get_unexplored_tile old_position choose).map (fun t => (t, 1))
    else some picked
  let picked :=
    match dungeon.get_go_down_tile with
    | some go_down_tile =>
      if ¬ go_down_tile.position = picked.1.position then (go_down_tile, 1) else picked
    | none => picked
  match dungeon.get_next_tile_to_goal current picked.1 with
  | some next_tile =>
    some (.findFight (next_tile.direction_from current) picked)
  | none => do
    let tile ← dungeon.get_random_tile_from_current none .unexplored choose
    some (.findFight (tile.direction_from current) (tile, 0))

/-- `determine_action` from ml.rs.  `none` embeds the panics reachable through
an unknown current position or an empty random-candidate list. -/
def determine_action (state : State) (last_action : Action)
    (old_position : Option Coords) (choose : List Tile → Option Tile) :
    Option Action :=
  match state.state_type with
  | .ad => some .closeAd
  | .teleportToCity =>
    if state.dungeon.has_dead_character then some .teleportToCity
    else some .cancelTeleportToCity
  | .main => some .gotoTown
  | .city has_dead_characters =>
    if has_dead_characters then some .resurrect else some .gotoDungeon
  | .dungeon =>
    let dungeon := state.dungeon
    match dungeon.state with
    | .idle on_city_tile =>
      if dungeon.has_dead_character then
        if on_city_tile then some (.returnToTown true .east)
        else returnTownAction dungeon choose
      else do
        let current ← dungeon.get_current_tile
        match dungeon.get_go_down_tile with
        | some go_down_tile =>
          if go_down_tile.position = current.position then some .goDown
          else idleExploreAction dungeon last_action old_position choose current
        | none => idleExploreAction dungeon last_action old_position choose current
    | .idleChest => some .openChest
    | .fight _ =>
      if (false && dungeon.has_low_character) || dungeon.has_dead_character then
        returnTownAction dungeon choose
      else some .fight

/-- `run_action` from ml.rs: the adb taps are external side effects; the
returned pair is the (possibly mutated) state and the predicted position the
source returns for movement actions.  `none` embeds the panics: the
`get_position().unwrap()` on an unknown position and the `move_direction`
underflow. -/
def run_action (state : State) (action : Action) : Option (State × Option Coords) :=
  match action with
  | .closeAd => some (state, none)
  | .gotoTown => some (state, none)
  | .gotoDungeon => some ({ state with dungeon := state.dungeon.clear_visited }, none)
  | .cancelTeleportToCity => some (state, none)
  | .teleportToCity => some (state, none)
  | .goDown => some ({ state with dungeon := { state.dungeon with tiles := [] } }, none)
  | .findFight move_direction _ => do
    let p ← state.get_position
    let q ← p.move_direction move_direction
    some (state, some q)
  | .fight => some (state, none)
  | .openChest => some (state, none)
  | .returnToTown on_city_tile move_direction =>
    if on_city_tile then some (state, none)
    else do
      let p ← state.get_position
      let q ← p.move_direction move_direction
      some (state, some q)
  | .resurrect => some (state, none)

/-- Color constants from ml.rs. -/
def WHITE : RGB := ⟨255, 255, 255⟩

/-- `CITY_1` from ml.rs. -/
def CITY_1 : RGB := ⟨1, 0, 31⟩

/-- `CITY_2` from ml.rs. -/
def CITY_2 : RGB := ⟨3, 2, 20⟩

/-- `FIGHT` from ml.rs. -/
def FIGHT : RGB := ⟨208, 188, 255⟩

/-- `HEALTH_GREY` from ml.rs. -/
def HEALTH_GREY : RGB := ⟨158, 158, 158⟩

/-- `HEALTH_RED` from ml.rs. -/
def HEALTH_RED : RGB := ⟨244, 67, 54⟩

/-- `HEALTH_RED_PLAYER` from ml.rs. -/
def HEALTH_RED_PLAYER : RGB := ⟨211, 47, 47⟩

/-- `HEALTH_GREEN` from ml.rs. -/
def HEALTH_GREEN : RGB := ⟨56, 142, 60⟩

/-- `HEALTH_ORANGE` from ml.rs. -/
def HEALTH_ORANGE : RGB := ⟨245, 124, 0⟩

/-- `IDLE_1` from ml.rs. -/
def IDLE_1 : RGB := ⟨202, 196, 208⟩

/-- `TILE_UNEXPLORED` from ml.rs. -/
def TILE_UNEXPLORED : RGB := ⟨29, 27, 32⟩

/-- `pixel_color` from ml.rs. -/
def pixel_color (image : Bitmap) (coords : Coords) (color : RGB) : Bool :=
  image.get_pixel coords.x coords.y = color

/-- `pixels_same_color` from ml.rs. -/
def pixels_same_color (image : Bitmap) (pixels : List Coords) (color : RGB) : Bool :=
  pixels.all (fun coords => image.get_pixel coords.x coords.y = color)

/-- `pixels_color` from ml.rs. -/
def pixels_color (image : Bitmap) (pixels : List (Coords × RGB)) : Bool :=
  pixels.all (fun pixel => image.get_pixel pixel.1.x pixel.1.y = pixel.2)

/-- `pixel_either_color` from ml.rs. -/
def pixel_either_color (image : Bitmap) (coords : Coords) (colors : List RGB) : Bool :=
  colors.any (fun v => v = image.get_pixel coords.x coords.y)

/-- `get_characters` from ml.rs: the four party health bars. -/
def get_characters (image : Bitmap) : List Character :=
  (List.range 4).map (fun i =>
    let y := 560 + i * 120
    { health :=
        if pixel_color image ⟨514, y⟩ HEALTH_GREEN then Health.healthy
        else if pixel_color image ⟨291, y⟩ HEALTH_GREEN then Health.hurt
        else if pixel_either_color image ⟨147, y⟩
            [HEALTH_RED_PLAYER, HEALTH_GREEN, HEALTH_ORANGE] then Health.low
        else if pixel_color image ⟨147, y⟩ HEALTH_GREY then Health.dead
        else Health.unknown })

/-- `get_enemy` from ml.rs. -/
def get_enemy (image : Bitmap) : Enemy :=
  let x := if pixel_either_color image ⟨90, 1472⟩ [HEALTH_RED, HEALTH_GREY] then 89 else 0
  { health :=
      if pixel_color image ⟨511 - x, 1471⟩ HEALTH_RED then Health.healthy
      else if pixel_color image ⟨355 - x, 1471⟩ HEALTH_RED then Health.hurt
      else if pixel_color image ⟨181 - x, 1471⟩ HEALTH_RED then Health.low
      else if pixel_color image ⟨181 - x, 1471⟩ HEALTH_GREY then Health.dead
      else Health.unknown }

/-- `is_wall` from `get_tiles`. -/
def is_wall (image : Bitmap) (x y : Nat) : Bool :=
  let color := image.get_pixel x y
  let color2 := image.get_pixel x (y + 1)
  color.all (fun v => decide (125 ≤ v)) || color2.all (fun v => decide (125 ≤ v)) ||
  color.all (fun v => decide (40 ≤ v ∧ v ≤ 64)) ||
  color2.all (fun v => decide (40 ≤ v ∧ v ≤ 64))

/-- `is_city` from `get_tiles`. -/
def is_city_pixel (image : Bitmap) (x y : Nat) : Bool :=
  let clr : RGB := ⟨244, 67, 54⟩
  let clr_faded : RGB := ⟨165, 118, 66⟩
  let color := image.get_pixel x y
  let color2 := image.get_pixel (x + 4) (y + 8)
  (color = clr || color = clr_faded) && !(color2 = clr) && !(color2 = clr_faded)

/-- `is_go_down` from `get_tiles` (the final conjunct pair
`color4 == clr && color4 == clr_faded` is unsatisfiable in the source and is
kept verbatim). -/
def is_go_down_pixel (image : Bitmap) (x y : Nat) : Bool :=
  let clr : RGB := ⟨244, 67, 54⟩
  let clr_faded : RGB := ⟨165, 118, 66⟩
  let color := image.get_pixel x y
  let color2 := image.get_pixel (x + 4) (y + 8)
  let color3 := image.get_pixel (x + 5) y
  let color4 := image.get_pixel (x - 5) y
  (color = clr || color = clr_faded) && (color2 = clr || color2 = clr_faded) &&
  !(color3 = clr) && (color3 = clr_faded) && (color4 = clr) && (color4 = clr_faded)

/-- `is_go_up` from `get_tiles`. -/
def is_go_up_pixel (image : Bitmap) (x y : Nat) : Bool :=
  let clr : RGB := ⟨244, 67, 54⟩
  let clr_faded : RGB := ⟨165, 118, 66⟩
  let color := image.get_pixel x y
  let color2 := image.get_pixel (x + 4) (y + 8)
  let color3 := image.get_pixel (x + 5) y
  let color4 := image.get_pixel (x - 5) y
  (color = clr || color = clr_faded) && !(color2 = clr) && !(color2 = clr_faded) &&
  (color3 = clr || color3 = clr_faded) && (color4 = clr || color4 = clr_faded)

/-- The body of `get_tiles` for one `(x_count, y_count)` window cell.  Outer
`none` is the hard-coded `panic!` at grid position `(22, 14)` with a passable
north edge; inner `none` is a `continue` (the cell is skipped). -/
def tileForCell (image : Bitmap) (x_base y_base : Int) (x_count y_count : Nat) :
    Option (Option Tile) :=
  if x_base + x_count < 0 ∨ y_base + y_count < 0 then some none
  else
    let x := 536 + x_count * 60 + 30
    let y := 536 + y_count * 60 + 30
    if pixel_color image ⟨x, y⟩ TILE_UNEXPLORED then some none
    else
      let go_up := is_go_up_pixel image (x - 2) y
      let position : Coords := ⟨(x_base + x_count).toNat, (y_base + y_count).toNat⟩
      let tile : Tile :=
        { explored := !pixel_color image ⟨x, y⟩ TILE_UNEXPLORED
          trap := false
          visited := false
          is_city := is_city_pixel image (x - 2) y
          is_go_down := decide (¬ position = ⟨15, 15⟩) && !go_up &&
            is_go_down_pixel image (x - 2) y
          position := position
          north_passable := !is_wall image x (536 + y_count * 60 + 1)
          east_passable := !is_wall image (536 + x_count * 60 + 60 - 4) y
          south_passable := !is_wall image x (536 + y_count * 60 + 60 - 4)
          west_passable := !is_wall image (536 + x_count * 60 + 1) y }
      if pixel_color image ⟨536 + x_count * 60 + 1, y⟩ TILE_UNEXPLORED &&
          !pixel_color image ⟨x, y⟩ TILE_UNEXPLORED then some none
      else if tile.position.x = 22 ∧ tile.position.y = 14 ∧ tile.north_passable then
        none
      else some (some tile)

/-- `get_tiles` from ml.rs: the 7x7 visible window around the recognized
position (x offset -4, y offset -3 as in the source's base computation),
outer loop over columns, inner loop over rows. -/
def get_tiles (info : DungeonInfo) (image : Bitmap) : Option (List Tile) :=
  let base : Int × Int :=
    match info.coordinates with
    | some coords => ((coords.x : Int) - 4, (coords.y : Int) - 3)
    | none => (0, 0)
  ((List.range 7).flatMap (fun x_count =>
      (List.range 7).map (fun y_count => (x_count, y_count)))).foldlM
    (fun tiles cell =>
      (tileForCell image base.1 base.2 cell.1 cell.2).map
        (fun result =>
          match result with
          | some tile => tiles ++ [tile]
          | none => tiles))
    []

/-- `Dungeon::new` from ml.rs (`none` = the `(22, 14)` panic in `get_tiles`). -/
def Dungeon.new (state : DungeonState) (image : Bitmap)
    (old_position : Option Coords) : Option Dungeon :=
  (get_tiles image.info image).map (fun tiles =>
    let d : Dungeon :=
      { state := state
        characters := get_characters image
        info :=
          match image.info.coordinates with
          | some _ => image.info
          | none => { floor := image.info.floor, coordinates := old_position }
        tiles := tiles }
    match d.info.coordinates with
    | some pos => d.set_tile_visited pos.x pos.y
    | none => d)

/-- `StateError` from ml.rs. -/
inductive StateError where
  | unknownState
deriving DecidableEq, Repr

/-- The first (ad overlay) predicate of `get_state`. -/
def adCheck (image : Bitmap) : Bool :=
  pixels_same_color image [⟨918, 138⟩, ⟨949, 138⟩, ⟨919, 168⟩, ⟨949, 168⟩] ⟨202, 196, 208⟩

/-- The teleport-prompt predicate of `get_state`. -/
def teleportCheck (image : Bitmap) : Bool :=
  pixels_same_color image [⟨911, 940⟩, ⟨155, 940⟩, ⟨919, 168⟩, ⟨949, 168⟩] ⟨43, 41, 48⟩

/-- The chest predicate of `get_state`. -/
def chestCheck (image : Bitmap) : Bool :=
  pixel_color image ⟨466, 1116⟩ ⟨185, 207, 220⟩ &&
  pixels_same_color image [⟨690, 1306⟩, ⟨717, 1326⟩] ⟨56, 30, 114⟩

/-- The fight predicate of `get_state`. -/
def fightCheck (image : Bitmap) : Bool :=
  image.info.coordinates.isNone &&
  (pixel_either_color image ⟨827, 1306⟩ [FIGHT, ⟨192, 172, 241⟩] ||
   pixel_either_color image ⟨827, 1260⟩ [FIGHT, ⟨192, 172, 241⟩]) &&
  !pixel_color image ⟨671, 1309⟩ ⟨56, 30, 114⟩

/-- The dungeon-idle predicate of `get_state`. -/
def idleCheck (image : Bitmap) : Bool :=
  pixel_color image ⟨979, 1083⟩ IDLE_1 && pixel_color image ⟨1023, 1116⟩ IDLE_1

/-- The on-city-tile refinement inside the idle branch of `get_state`. -/
def onCityTileCheck (image : Bitmap) : Bool :=
  pixel_color image ⟨716, 1279⟩ FIGHT &&
  !pixels_same_color image [⟨642, 1201⟩, ⟨608, 1307⟩, ⟨609, 1329⟩] ⟨56, 30, 114⟩

/-- The city predicate of `get_state`. -/
def cityCheck (image : Bitmap) : Bool :=
  pixels_color image [(⟨752, 1926⟩, CITY_1), (⟨75, 1512⟩, CITY_2)]

/-- The main-menu predicate of `get_state`. -/
def mainCheck (image : Bitmap) : Bool :=
  pixels_same_color image [⟨462, 1254⟩, ⟨536, 1262⟩, ⟨615, 1270⟩] WHITE

/-- `get_state` from ml.rs: ordered first-match-wins predicate dispatch (the
ad check is literally repeated in the source), `Err(UnknownState)` when no
predicate matches.  Outer `none` embeds the panic reachable through
`get_tiles` while building a dungeon variant. -/
def get_state (old_state : State) (image : Bitmap) :
    Option (Except StateError State) :=
  if adCheck image then
    some (.ok ((StateType.ad.intoState).merge old_state))
  else if teleportCheck image then
    some (.ok ((StateType.teleportToCity.intoState).merge old_state))
  else if adCheck image then
    some (.ok ((StateType.ad.intoState).merge old_state))
  else if chestCheck image then
    (Dungeon.new .idleChest image old_state.get_position).map
      (fun d => .ok (State.merge ⟨.dungeon, d⟩ old_state))
  else if fightCheck image then
    (Dungeon.new (.fight (get_enemy image)) image old_state.get_position).map
      (fun d => .ok (State.merge ⟨.dungeon, d⟩ old_state))
  else if idleCheck image then
    (Dungeon.new (.idle (onCityTileCheck image)) image old_state.get_position).map
      (fun d => .ok (State.merge ⟨.dungeon, d⟩ old_state))
  else if cityCheck image then
    some (.ok ((StateType.city image.has_dead_characters).intoState.merge old_state))
  else if mainCheck image then
    some (.ok ((StateType.main.intoState).merge old_state))
  else some (.error .unknownState)

/-- `run` from main.rs: capture and the tap dispatch are external I/O (this
revision of the caller discards `run_action`'s predicted position); the
`.unwrap()` on the classification result is a panic — embedded as `none` —
whenever `get_state` reports `UnknownState`. -/
def run (old_state : State) (image : Bitmap) (last_action : Action)
    (choose : List Tile → Option Tile) : Option (State × Action) :=
  let old_position := old_state.get_position
  match get_state old_state image with
  | none => none
  | some (.error _) => none
  | some (.ok state) =>
    (determine_action state last_action old_position choose).map
      (fun action => (state, action))

/-- Reachability in the successor graph of the unvisited-tile search: the
coordinates a walk from `start` can visit under the current per-tile
passability flags, never-sampled coordinates being fully passable. -/
inductive Reaches (d : Dungeon) (start : Coords) : Coords → Prop
  | refl : Reaches d start start
  | step {p q : Coords} : Reaches d start p → q ∈ d.unvisited_successors p →
      Reaches d start q

/-- A fully open, visited, explored tile used by concrete test states. -/
def openTile (x y : Nat) : Tile :=
  { explored := true, trap := false, is_city := false, is_go_down := false,
    visited := true, position := ⟨x, y⟩,
    north_passable := true, east_passable := true,
    south_passable := true, west_passable := true }

/-- A fully walled tile used by concrete test states. -/
def walledTile (x y : Nat) : Tile :=
  { explored := true, trap := false, is_city := false, is_go_down := false,
    visited := true, position := ⟨x, y⟩,
    north_passable := false, east_passable := false,
    south_passable := false, west_passable := false }

/-- A party with one dead member. -/
def oneDeadParty : List Character :=
  [⟨.dead⟩, ⟨.unknown⟩, ⟨.unknown⟩, ⟨.unknown⟩]

/-- A fully healthy party. -/
def healthyParty : List Character :=
  [⟨.healthy⟩, ⟨.healthy⟩, ⟨.healthy⟩, ⟨.healthy⟩]

/-- C1 counterexample state: a fight with a dead party member while standing
on the known city tile. -/
def stateC1 : State :=
  { state_type := .dungeon,
    dungeon :=
      { state := .fight ⟨.healthy⟩,
        characters := oneDeadParty,
        info := { floor := "B1", coordinates := some ⟨5, 5⟩ },
        tiles := [{ openTile 5 5 with is_city := true }] } }

/-- C1 witness state: a fight with a fully healthy party. -/
def stateC1w : State :=
  { state_type := .dungeon,
    dungeon :=
      { state := .fight ⟨.healthy⟩,
        characters := healthyParty,
        info := { floor := "B1", coordinates := some ⟨5, 5⟩ },
        tiles := [openTile 5 5] } }

/-- C2 counterexample: the current tile only opens east onto a dead end, so
the sticky target at `(0,0)` is unreachable. -/
def dungeonC2 : Dungeon :=
  { state := .idle false,
    characters := healthyParty,
    info := { floor := "B1", coordinates := some ⟨5, 5⟩ },
    tiles := [{ walledTile 5 5 with east_passable := true },
              { walledTile 6 5 with visited := false }] }

/-- C2 counterexample wrapper state. -/
def stateC2 : State := { state_type := .dungeon, dungeon := dungeonC2 }

/-- The unreached sticky target of the C2 counterexample. -/
def targetC2 : Tile := { walledTile 0 0 with visited := false }

/-- The dead-end tile the C2 counterexample's fallback retargets to. -/
def deadEndC2 : Tile := { walledTile 6 5 with visited := false }

/-- C2 witness: an open two-tile dungeon where the sticky target at `(6,5)`
is one step east and reachable. -/
def dungeonC2w : Dungeon :=
  { state := .idle false,
    characters := healthyParty,
    info := { floor := "B1", coordinates := some ⟨5, 5⟩ },
    tiles := [openTile 5 5, { openTile 6 5 with visited := false }] }

/-- C2 witness wrapper state. -/
def stateC2w : State := { state_type := .dungeon, dungeon := dungeonC2w }

/-- The sticky target of the C2 witness. -/
def targetC2w : Tile := { openTile 6 5 with visited := false }

/-- C3 counterexample bitmap: an all-black sample matches no classifier
predicate. -/
def blackBitmapC3 : Bitmap :=
  { pixels := [], has_dead_characters := false,
    info := { floor := "", coordinates := none } }

/-- C4 witness bitmap: an all-black sample matches no classifier predicate. -/
def blackBitmapC4 : Bitmap :=
  { pixels := [], has_dead_characters := false,
    info := { floor := "", coordinates := none } }

/-- C5 witness grid: one visited tile, nodup positions. -/
def stateC5 : State :=
  { state_type := .dungeon,
    dungeon :=
      { state := .idle false,
        characters := healthyParty,
        info := { floor := "B1", coordinates := some ⟨5, 5⟩ },
        tiles := [openTile 5 5, { openTile 6 5 with visited := false }] } }

/-- C5 witness old grid: the same positions with the visited flag on the
second tile instead. -/
def oldStateC5 : State :=
  { state_type := .dungeon,
    dungeon :=
      { state := .idle false,
        characters := healthyParty,
        info := { floor := "B1", coordinates := some ⟨5, 5⟩ },
        tiles := [{ openTile 5 5 with visited := false }, openTile 6 5] } }

/-- C6 witness new grid: already carries a city marker at `(5,5)`. -/
def stateC6 : State :=
  { state_type := .dungeon,
    dungeon :=
      { state := .idle false,
        characters := healthyParty,
        info := { floor := "B1", coordinates := some ⟨5, 5⟩ },
        tiles := [{ openTile 5 5 with is_city := true }] } }

/-- C6 witness old grid: a stale city marker on a tile outside the new
window, and a stale staircase marker at a position the new grid knows. -/
def oldStateC6 : State :=
  { state_type := .dungeon,
    dungeon :=
      { state := .idle false,
        characters := healthyParty,
        info := { floor := "B1", coordinates := some ⟨9, 9⟩ },
        tiles := [{ openTile 9 9 with is_city := true, is_go_down := true }] } }

/-- C7 example dungeon (kept for reference evaluations): a visited start with
walls except east, leading to an unvisited dead end. -/
def dungeonC7 : Dungeon :=
  { state := .idle false,
    characters := healthyParty,
    info := { floor := "B1", coordinates := some ⟨5, 5⟩ },
    tiles := [{ walledTile 5 5 with east_passable := true },
              { walledTile 6 5 with visited := false }] }

/-- C8 counterexample dungeon: the current tile has no passable edge, so the
random fallback has no candidate at all. -/
def dungeonC8 : Dungeon :=
  { state := .idle false,
    characters := healthyParty,
    info := { floor := "B1", coordinates := some ⟨5, 5⟩ },
    tiles := [walledTile 5 5] }

/-- C8 counterexample wrapper state. -/
def stateC8 : State := { state_type := .dungeon, dungeon := dungeonC8 }

/-- The sticky target used to drive the C8 counterexample into the fallback. -/
def targetC8 : Tile := { walledTile 0 0 with visited := false }

/-- C8 witness dungeon: the current tile opens east only. -/
def dungeonC8w : Dungeon :=
  { state := .idle false,
    characters := healthyParty,
    info := { floor := "B1", coordinates := some ⟨5, 5⟩ },
    tiles := [{ walledTile 5 5 with east_passable := true }] }

/-- C9 witness state: a dungeon state with known position `(3, 4)`. -/
def stateC9 : State :=
  { state_type := .dungeon,
    dungeon :=
      { state := .idle false,
        characters := healthyParty,
        info := { floor := "B1", coordinates := some ⟨3, 4⟩ },
        tiles := [openTile 3 4] } }

/-- C9 witness state with an unknown position. -/
def stateC9none : State :=
  { state_type := .dungeon,
    dungeon :=
      { state := .idle false,
        characters := healthyParty,
        info := { floor := "B1", coordinates := none },
        tiles := [] } }

/-- A tile payload for C9's movement actions. -/
def tileC9 : Tile := openTile 3 4

/-- C10 witness new state: a fight state with a city tile. -/
def stateC10 : State :=
  { state_type := .dungeon,
    dungeon :=
      { state := .fight ⟨.hurt⟩,
        characters := healthyParty,
        info := { floor := "B2", coordinates := some ⟨4, 4⟩ },
        tiles := [{ openTile 4 4 with is_city := true }] } }

/-- C10 witness old state: different run-state, characters and coordinates. -/
def oldStateC10 : State :=
  { state_type := .main,
    dungeon :=
      { state := .idleChest,
        characters := oneDeadParty,
        info := { floor := "B9", coordinates := some ⟨7, 7⟩ },
        tiles := [openTile 7 7] } }

/-- Forget a tile's visited flag (for stating merge idempotence modulo
visited accumulation). -/
def clearTileVisited (t : Tile) : Tile := { t with visited := false }

/-- C10: State.merge modifies only the tiles collection of the receiving
state; the merged result's state type, dungeon run-state, characters and
DungeonInfo (floor and coordinates) all equal the new state's fields, for
every pair of states. -/
theorem merge_preserves_non_tile_fields (self old : State) :
    (self.merge old).state_type = self.state_type ∧
    (self.merge old).dungeon.state = self.dungeon.state ∧
    (self.merge old).dungeon.characters = self.dungeon.characters ∧
    (self.merge old).dungeon.info = self.dungeon.info :=
  ⟨rfl, rfl, rfl, rfl⟩

/-- C10 witness: the merged state keeps the new state's non-tile fields on a
concrete pair of states. -/
theorem merge_preserves_non_tile_fields_witness :
    (stateC10.merge oldStateC10).state_type = stateC10.state_type ∧
    (stateC10.merge oldStateC10).dungeon.state = stateC10.dungeon.state ∧
    (stateC10.merge oldStateC10).dungeon.characters = stateC10.dungeon.characters ∧
    (stateC10.merge oldStateC10).dungeon.info = stateC10.dungeon.info :=
  merge_preserves_non_tile_fields stateC10 oldStateC10

/-- C4: whenever none of the ordered classifier predicates matches the pixel
sample, get_state returns the UnknownState error and never any state
variant. -/
theorem get_state_unknown_on_no_match (old_state : State) (image : Bitmap)
    (h1 : adCheck image = false) (h2 : teleportCheck image = false)
    (h3 : chestCheck image = false) (h4 : fightCheck image = false)
    (h5 : idleCheck image = false) (h6 : cityCheck image = false)
    (h7 : mainCheck image = false) :
    get_state old_state image = some (.error .unknownState) := by
  simp [get_state, h1, h2, h3, h4, h5, h6, h7]

/-- C4 witness: the all-black sample satisfies no predicate and classifies to
the UnknownState error. -/
theorem get_state_unknown_on_no_match_witness :
    adCheck blackBitmapC4 = false ∧ teleportCheck blackBitmapC4 = false ∧
    chestCheck blackBitmapC4 = false ∧ fightCheck blackBitmapC4 = false ∧
    idleCheck blackBitmapC4 = false ∧ cityCheck blackBitmapC4 = false ∧
    mainCheck blackBitmapC4 = false ∧
    get_state State.default blackBitmapC4 = some (.error .unknownState) :=
  ⟨rfl, rfl, rfl, rfl, rfl, rfl, rfl,
   get_state_unknown_on_no_match State.default blackBitmapC4
     rfl rfl rfl rfl rfl rfl rfl⟩

/-- C3 counterexample: on a sample matching no predicate the caller does not
keep the previous state and skip the tick — it unwraps the classification
error, i.e. the loop panics (embedded as `none`). -/
theorem run_unknown_state_counterexample :
    get_state State.default blackBitmapC3 = some (.error .unknownState) ∧
    run State.default blackBitmapC3 .closeAd List.head? = none :=
  ⟨rfl, rfl⟩

/-- C3 (amended): when classification fails with UnknownState the error is
returned to the caller, but the caller unwraps it, so the tick is not skipped
recoverably: the loop panics instead of keeping the old state. -/
theorem run_panics_on_unknown_state (old_state : State) (image : Bitmap)
    (last_action : Action) (choose : List Tile → Option Tile)
    (h : get_state old_state image = some (.error .unknownState)) :
    run old_state image last_action choose = none := by
  simp [run, h]

/-- C3 witness: the amended behaviour on the all-black sample. -/
theorem run_panics_on_unknown_state_witness :
    get_state State.default blackBitmapC3 = some (.error .unknownState) ∧
    run State.default blackBitmapC3 .fight List.head? = none :=
  ⟨rfl, run_panics_on_unknown_state State.default blackBitmapC3 .fight List.head? rfl⟩

/-- C1 counterexample: in a fight with a dead party member the planner takes
the retreat branch, not the Fight action — the hard-coded flag only disables
the low-health trigger. -/
theorem fight_state_counterexample :
    determine_action stateC1 .closeAd none List.head?
      = some (.returnToTown false .north) ∧
    ¬ determine_action stateC1 .closeAd none List.head? = some .fight := by
  refine ⟨rfl, ?_⟩
  decide

/-- C1 (amended): in state Dungeon with run-state Fight, determine_action
returns Fight whenever no party member is dead; the low-health retreat
trigger is disabled by the hard-coded flag, but a dead party member still
takes the retreat branch. -/
theorem fight_state_gives_fight (state : State) (e : Enemy) (last_action : Action)
    (old_position : Option Coords) (choose : List Tile → Option Tile)
    (hst : state.state_type = .dungeon)
    (hds : state.dungeon.state = .fight e)
    (hdead : state.dungeon.has_dead_character = false) :
    determine_action state last_action old_position choose = some .fight := by
  simp [determine_action, hst, hds, hdead]

/-- C1 witness: a healthy party in a fight yields the Fight action. -/
theorem fight_state_gives_fight_witness :
    stateC1w.state_type = .dungeon ∧
    stateC1w.dungeon.state = .fight ⟨.healthy⟩ ∧
    stateC1w.dungeon.has_dead_character = false ∧
    determine_action stateC1w .closeAd none List.head? = some .fight :=
  ⟨rfl, rfl, rfl,
   fight_state_gives_fight stateC1w ⟨.healthy⟩ .closeAd none List.head? rfl rfl rfl⟩

/-- C9: executing a movement action predicts the position one step in the
move direction; the prediction is total exactly when the position is known
and off the corresponding axis origin — moving north at `y = 0` or west at
`x = 0` underflows the unsigned subtraction (a panic, embedded as `none`). -/
theorem run_action_movement (state : State) (direction : MoveDirection)
    (target : Tile × Nat) (p : Coords)
    (hp : state.get_position = some p) :
    run_action state (.findFight direction target)
        = (p.move_direction direction).map (fun q => (state, some q)) ∧
    run_action state (.returnToTown false direction)
        = (p.move_direction direction).map (fun q => (state, some q)) ∧
    (p.move_direction direction = none ↔
      (direction = .north ∧ p.y = 0) ∨ (direction = .west ∧ p.x = 0)) ∧
    (∀ s : State, s.get_position = none →
      run_action s (.findFight direction target) = none) := by
  refine ⟨?_, ?_, ?_, ?_⟩
  · cases hq : p.move_direction direction <;>
      simp [run_action, hp, hq]
  · cases hq : p.move_direction direction <;>
      simp [run_action, hp, hq]
  · cases direction <;> simp [Coords.move_direction]
  · intro s hs
    simp [run_action, hs]

/-- C9 witness: the movement prediction at the concrete position `(3, 4)`. -/
theorem run_action_movement_witness :
    stateC9.get_position = some ⟨3, 4⟩ ∧
    (run_action stateC9 (.findFight .west (tileC9, 1))
        = ((⟨3, 4⟩ : Coords).move_direction .west).map (fun q => (stateC9, some q)) ∧
     run_action stateC9 (.returnToTown false .west)
        = ((⟨3, 4⟩ : Coords).move_direction .west).map (fun q => (stateC9, some q)) ∧
     ((⟨3, 4⟩ : Coords).move_direction .west = none ↔
       (MoveDirection.west = .north ∧ (⟨3, 4⟩ : Coords).y = 0) ∨
       (MoveDirection.west = .west ∧ (⟨3, 4⟩ : Coords).x = 0)) ∧
    (∀ s : State, s.get_position = none →
      run_action s (.findFight .west (tileC9, 1)) = none)) :=
  ⟨rfl, run_action_movement stateC9 .west (tileC9, 1) ⟨3, 4⟩ rfl⟩

/-- C2 counterexample: under the claim's conditions (Dungeon/Idle, no dead
member, current tile not the staircase, previous FindFight target not yet
reached, counter within bound) the pathfinder fails, and the planner returns
a different target with the counter reset to 0 — not the same target with
the counter incremented to 4. -/
theorem planner_stickiness_counterexample :
    dungeonC2.has_dead_character = false ∧
    dungeonC2.get_go_down_tile = none ∧
    dungeonC2.get_current_tile = some { walledTile 5 5 with east_passable := true } ∧
    ¬ targetC2.position = (⟨5, 5⟩ : Coords) ∧
    dungeonC2.get_next_tile_to_goal
      { walledTile 5 5 with east_passable := true } targetC2 = none ∧
    determine_action stateC2 (.findFight .east (targetC2, 3)) none List.head?
      = some (.findFight .east (deadEndC2, 0)) ∧
    ¬ deadEndC2 = targetC2 := by
  refine ⟨rfl, rfl, rfl, by decide, rfl, rfl, by decide⟩

/-- C2 (amended): in Dungeon/Idle with no dead member, a known current tile,
no known staircase-down tile, and a previous FindFight target not yet reached
whose incremented counter stays within 30, the planner keeps the same target
with the counter incremented by exactly 1 — provided the pathfinder finds a
step towards it; when the pathfinder fails, the random fallback instead
returns a fresh neighbour target with the counter reset to 0. -/
theorem planner_stickiness (state : State) (b : Bool) (dirL : MoveDirection)
    (target current : Tile) (k : Nat) (old_position : Option Coords)
    (choose : List Tile → Option Tile)
    (hst : state.state_type = .dungeon)
    (hds : state.dungeon.state = .idle b)
    (hdead : state.dungeon.has_dead_character = false)
    (hcur : state.dungeon.get_current_tile = some current)
    (hgd : state.dungeon.get_go_down_tile = none)
    (hne : ¬ target.position = current.position)
    (hk : k + 1 ≤ 30) :
    (∀ next, state.dungeon.get_next_tile_to_goal current target = some next →
      determine_action state (.findFight dirL (target, k)) old_position choose
        = some (.findFight (next.direction_from current) (target, k + 1))) ∧
    (state.dungeon.get_next_tile_to_goal current target = none →
      ∀ tile, state.dungeon.get_random_tile_from_current none .unexplored choose
          = some tile →
        determine_action state (.findFight dirL (target, k)) old_position choose
          = some (.findFight (tile.direction_from current) (tile, 0))) := by
  have hk30 : ¬ 30 < k + 1 := Nat.not_lt.mpr hk
  constructor
  · intro next hnext
    simp [determine_action, idleExploreAction, hst, hds, hdead, hcur, hgd,
      hne, hk30, hnext]
  · intro hfail tile htile
    simp [determine_action, idleExploreAction, hst, hds, hdead, hcur, hgd,
      hne, hk30, hfail, htile]

/-- C2 witness: one step east of the current tile the sticky target is still
unreached; the planner keeps it and bumps the counter from 2 to 3. -/
theorem planner_stickiness_witness :
    stateC2w.dungeon.has_dead_character = false ∧
    stateC2w.dungeon.get_current_tile = some (openTile 5 5) ∧
    stateC2w.dungeon.get_go_down_tile = none ∧
    ¬ targetC2w.position = (openTile 5 5).position ∧
    2 + 1 ≤ 30 ∧
    stateC2w.dungeon.get_next_tile_to_goal (openTile 5 5) targetC2w
      = some targetC2w ∧
    determine_action stateC2w (.findFight .east (targetC2w, 2)) none List.head?
      = some (.findFight (targetC2w.direction_from (openTile 5 5)) (targetC2w, 2 + 1)) :=
  ⟨rfl, rfl, rfl, by decide, by decide, rfl,
   (planner_stickiness stateC2w false .east targetC2w (openTile 5 5) 2 none
      List.head? rfl rfl rfl rfl rfl (by decide) (by decide)).1 targetC2w rfl⟩

/-- The synthetic-or-stored tile returned by `get_tile` always sits at the
requested position. -/
theorem get_tile_position (d : Dungeon) (x y : Nat) :
    (d.get_tile x y).position = ⟨x, y⟩ := by
  unfold Dungeon.get_tile
  cases hf : d.tiles.find? (fun t => decide (t.position.x = x ∧ t.position.y = y)) with
  | none => rfl
  | some t =>
    have h := List.find?_some hf
    simp only [decide_eq_true_eq] at h
    obtain ⟨hx, hy⟩ := h
    rw [← hx, ← hy]

/-- Every tile a neighbour-candidate stage yields is one move step from the
current position. -/
theorem neighbourCandidate_adjacent (d : Dungeon) (passable : Bool) (p : Coords)
    (dir : MoveDirection) (l : List Tile)
    (h : d.neighbourCandidate passable p dir = some l) :
    ∀ t ∈ l, p.move_direction dir = some t.position := by
  intro t ht
  unfold Dungeon.neighbourCandidate at h
  cases passable with
  | false =>
    simp only [Bool.false_eq_true, if_false, Option.some.injEq] at h
    subst h
    simp at ht
  | true =>
    simp only [if_true] at h
    cases hq : p.move_direction dir with
    | none => rw [hq] at h; exact absurd h (by simp)
    | some q =>
      simp only [hq] at h
      by_cases hm : ((d.get_tile q.x q.y).is_city || (d.get_tile q.x q.y).is_go_down) = true
      · rw [if_pos hm] at h
        obtain rfl := (Option.some.inj h).symm
        simp at ht
      · rw [if_neg hm] at h
        obtain rfl := (Option.some.inj h).symm
        simp at ht
        subst ht
        rw [get_tile_position]

/-- The avoid-position stage only removes candidates. -/
theorem avoidFilter_subset (avoid_position : Option Coords) (tiles : List Tile) :
    ∀ t ∈ avoidFilter avoid_position tiles, t ∈ tiles := by
  intro t ht
  cases avoid_position with
  | none => exact ht
  | some a =>
    unfold avoidFilter at ht
    by_cases hlen : 1 < tiles.length
    · simp only [hlen, if_true] at ht
      exact (List.mem_filter.1 ht).1
    · simp only [hlen, if_false] at ht
      exact ht

/-- The `RandomTarget` narrowing stage only removes candidates. -/
theorem targetNarrow_subset (d : Dungeon) (random_target : RandomTarget)
    (tiles : List Tile) :
    ∀ t ∈ targetNarrow d random_target tiles, t ∈ tiles := by
  intro t ht
  unfold targetNarrow at ht
  by_cases hlen : 1 < tiles.length
  · simp only [hlen, if_true] at ht
    cases random_target with
    | goDown =>
      cases hf : tiles.find? (fun tile => tile.is_go_down) with
      | none => simp only [hf] at ht; exact ht
      | some tile =>
        simp only [hf] at ht
        simp at ht
        subst ht
        exact List.mem_of_find?_eq_some hf
    | city =>
      cases hf : tiles.find? (fun tile => tile.is_city) with
      | none => simp only [hf] at ht; exact ht
      | some tile =>
        simp only [hf] at ht
        simp at ht
        subst ht
        exact List.mem_of_find?_eq_some hf
    | unexplored =>
      by_cases hemp : (tiles.filter (fun tile => d.unexploredDirectionTest tile)).isEmpty
      · simp only [hemp, if_true] at ht; exact ht
      · simp only [hemp, if_false] at ht
        exact (List.mem_filter.1 ht).1
  · simp only [hlen, if_false] at ht
    exact ht

/-- Every tile in the random-fallback candidate list is one move step from
the current tile, which is known whenever the list is produced at all. -/
theorem get_random_tile_list_adjacent (d : Dungeon) (avoid_position : Option Coords)
    (random_target : RandomTarget) (l : List Tile)
    (h : d.get_random_tile_list avoid_position random_target = some l) :
    ∃ current, d.get_current_tile = some current ∧
      ∀ t ∈ l, ∃ dir : MoveDirection,
        current.position.move_direction dir = some t.position := by
  unfold Dungeon.get_random_tile_list at h
  cases hc : d.get_current_tile with
  | none => rw [hc] at h; exact absurd h (by simp)
  | some current =>
    rw [hc] at h
    simp only [Option.bind_eq_bind, Option.some_bind] at h
    cases hn : d.neighbourCandidate current.north_passable current.position .north with
    | none => rw [hn] at h; exact absurd h (by simp)
    | some n =>
    rw [hn] at h
    simp only [Option.bind_eq_bind, Option.some_bind] at h
    cases he : d.neighbourCandidate current.east_passable current.position .east with
    | none => rw [he] at h; exact absurd h (by simp)
    | some e =>
    rw [he] at h
    simp only [Option.bind_eq_bind, Option.some_bind] at h
    cases hs : d.neighbourCandidate current.south_passable current.position .south with
    | none => rw [hs] at h; exact absurd h (by simp)
    | some s =>
    rw [hs] at h
    simp only [Option.bind_eq_bind, Option.some_bind] at h
    cases hw : d.neighbourCandidate current.west_passable current.position .west with
    | none => rw [hw] at h; exact absurd h (by simp)
    | some w =>
    rw [hw] at h
    simp only [Option.bind_eq_bind, Option.some_bind, Option.some.injEq] at h
    refine ⟨current, rfl, ?_⟩
    intro t ht
    rw [← h] at ht
    have hmem : t ∈ n ++ e ++ s ++ w :=
      avoidFilter_subset avoid_position _ t
        (targetNarrow_subset d random_target _ t ht)
    rcases List.mem_append.1 hmem with hmem | hmemw
    · rcases List.mem_append.1 hmem with hmem | hmems
      · rcases List.mem_append.1 hmem with hmemn | hmeme
        · exact ⟨.north, neighbourCandidate_adjacent d _ _ _ n hn t hmemn⟩
        · exact ⟨.east, neighbourCandidate_adjacent d _ _ _ e he t hmeme⟩
      · exact ⟨.south, neighbourCandidate_adjacent d _ _ _ s hs t hmems⟩
    · exact ⟨.west, neighbourCandidate_adjacent d _ _ _ w hw t hmemw⟩

/-- C8 counterexample: with a fully walled current tile the fallback's
candidate list is empty, the draw fails and the `unwrap` panics (none);
the planner's Idle branch propagates the panic instead of recovering. -/
theorem random_fallback_counterexample :
    dungeonC8.get_random_tile_list none .unexplored = some [] ∧
    dungeonC8.get_random_tile_from_current none .unexplored List.head? = none ∧
    determine_action stateC8 (.findFight .east (targetC8, 1)) none List.head?
      = none :=
  ⟨rfl, rfl, rfl⟩

/-- C8 (amended): pathfinding failures at the planner's call sites fall back
to the random-neighbour draw rather than an error value, and the fallback
returns a tile one step from the current tile whenever its candidate list is
nonempty; with an empty candidate list (no passable neighbour free of
city/staircase markers) the draw's `unwrap` panics. -/
theorem random_fallback_returns_neighbour (d : Dungeon)
    (avoid_position : Option Coords) (random_target : RandomTarget)
    (choose : List Tile → Option Tile) (l : List Tile)
    (hl : d.get_random_tile_list avoid_position random_target = some l)
    (hne : ¬ l = [])
    (hchoose : ∀ xs : List Tile, ¬ xs = [] → ∃ t ∈ xs, choose xs = some t) :
    ∃ t ∈ l, d.get_random_tile_from_current avoid_position random_target choose
        = some t ∧
      ∃ current, d.get_current_tile = some current ∧
        ∃ dir : MoveDirection,
          current.position.move_direction dir = some t.position := by
  obtain ⟨t, htl, hct⟩ := hchoose l hne
  obtain ⟨current, hcur, hadj⟩ :=
    get_random_tile_list_adjacent d avoid_position random_target l hl
  exact ⟨t, htl,
    by simp [Dungeon.get_random_tile_from_current, hl, hct],
    current, hcur, hadj t htl⟩

/-- C8 witness: with the east edge open the fallback returns the east
neighbour. -/
theorem random_fallback_returns_neighbour_witness :
    dungeonC8w.get_random_tile_list none .unexplored
      = some [dungeonC8w.get_tile 6 5] ∧
    ¬ ([dungeonC8w.get_tile 6 5] : List Tile) = [] ∧
    ∃ t ∈ [dungeonC8w.get_tile 6 5],
      dungeonC8w.get_random_tile_from_current none .unexplored List.head?
        = some t ∧
      ∃ current, dungeonC8w.get_current_tile = some current ∧
        ∃ dir : MoveDirection,
          current.position.move_direction dir = some t.position :=
  ⟨rfl, by decide,
   random_fallback_returns_neighbour dungeonC8w none .unexplored List.head?
     [dungeonC8w.get_tile 6 5] rfl (by decide)
     (fun xs hxs => by
       cases xs with
       | nil => exact absurd rfl hxs
       | cons a as => exact ⟨a, List.mem_cons_self a as, rfl⟩)⟩

/-- A property preserved by every fold step holds of the fold result. -/
theorem foldl_invariant {α β : Type} (f : α → β → α) (P : α → Prop) :
    ∀ (l : List β) (a : α), (∀ a b, b ∈ l → P a → P (f a b)) → P a →
      P (l.foldl f a)
  | [], _, _, ha => ha
  | b :: l, a, hstep, ha =>
    foldl_invariant f P l (f a b)
      (fun a' b' hb' => hstep a' b' (List.mem_cons_of_mem b hb'))
      (hstep a b (List.mem_cons_self b l) ha)

/-- A property established by folding some list element and preserved by every
step holds of the fold result. -/
theorem foldl_mem_establish {α β : Type} (f : α → β → α) (P : α → Prop)
    (hstep : ∀ a b, P a → P (f a b)) (b : β) (hb : ∀ a, P (f a b)) :
    ∀ (l : List β) (a : α), b ∈ l → P (l.foldl f a) := by
  intro l
  induction l with
  | nil => intro a hmem; exact absurd hmem (List.not_mem_nil b)
  | cons c l ih =>
    intro a hmem
    rcases List.mem_cons.1 hmem with rfl | hmem
    · exact foldl_invariant f P l (f a b) (fun a' b' _ => hstep a' b') (hb a)
    · exact ih (f a c) hmem

/-- Folding one old tile into the new grid never moves a tile off its
position and never erases a visited flag or (under the corresponding
`is_none` guard) a marker flag. -/
theorem mergeUpdateFirst_mono (cn dn : Bool) (t : Tile) :
    ∀ acc acc2, mergeUpdateFirst cn dn t acc = some acc2 →
      ∀ v ∈ acc, ∃ u ∈ acc2, u.position = v.position ∧
        (v.visited = true → u.visited = true) ∧
        (cn = true → v.is_city = true → u.is_city = true) ∧
        (dn = true → v.is_go_down = true → u.is_go_down = true)
  | [], _, h => by simp [mergeUpdateFirst] at h
  | c :: rest, acc2, h => by
    intro v hv
    unfold mergeUpdateFirst at h
    by_cases hcp : c.position = t.position
    · rw [if_pos hcp, Option.some.injEq] at h
      subst h
      rcases List.mem_cons.1 hv with rfl | hv
      · refine ⟨_, List.mem_cons_self _ _, rfl, ?_, ?_, ?_⟩
        · intro hvv; simp [hvv]
        · intro hcn hvc; simp [hcn, hvc]
        · intro hdn hvd; simp [hdn, hvd]
      · exact ⟨v, List.mem_cons_of_mem _ hv, rfl, fun h => h,
          fun _ h => h, fun _ h => h⟩
    · rw [if_neg hcp] at h
      cases hrec : mergeUpdateFirst cn dn t rest with
      | none => rw [hrec] at h; exact absurd h (by simp)
      | some rest2 =>
        rw [hrec] at h
        simp only [Option.map_some', Option.some.injEq] at h
        subst h
        rcases List.mem_cons.1 hv with rfl | hv
        · exact ⟨v, List.mem_cons_self _ _, rfl, fun h => h,
            fun _ h => h, fun _ h => h⟩
        · obtain ⟨u, hu, hup, huv, huc, hud⟩ :=
            mergeUpdateFirst_mono cn dn t rest rest2 hrec v hv
          exact ⟨u, List.mem_cons_of_mem _ hu, hup, huv, huc, hud⟩

/-- Every tile of the in-place-updated list derives from a tile of the input
list at the same position, with markers unchanged when the corresponding
`is_none` guard is off. -/
theorem mergeUpdateFirst_origin (cn dn : Bool) (t : Tile) :
    ∀ acc acc2, mergeUpdateFirst cn dn t acc = some acc2 →
      ∀ u ∈ acc2, ∃ v ∈ acc, v.position = u.position ∧
        (cn = false → u.is_city = v.is_city) ∧
        (dn = false → u.is_go_down = v.is_go_down)
  | [], _, h => by simp [mergeUpdateFirst] at h
  | c :: rest, acc2, h => by
    intro u hu
    unfold mergeUpdateFirst at h
    by_cases hcp : c.position = t.position
    · rw [if_pos hcp, Option.some.injEq] at h
      subst h
      rcases List.mem_cons.1 hu with rfl | hu
      · exact ⟨c, List.mem_cons_self _ _, rfl,
          fun hcn => by simp [hcn], fun hdn => by simp [hdn]⟩
      · exact ⟨u, List.mem_cons_of_mem _ hu, rfl, fun _ => rfl, fun _ => rfl⟩
    · rw [if_neg hcp] at h
      cases hrec : mergeUpdateFirst cn dn t rest with
      | none => rw [hrec] at h; exact absurd h (by simp)
      | some rest2 =>
        rw [hrec] at h
        simp only [Option.map_some', Option.some.injEq] at h
        subst h
        rcases List.mem_cons.1 hu with rfl | hu
        · exact ⟨u, List.mem_cons_self _ _, rfl, fun _ => rfl, fun _ => rfl⟩
        · obtain ⟨v, hv, hvp, hvc, hvd⟩ :=
            mergeUpdateFirst_origin cn dn t rest rest2 hrec u hu
          exact ⟨v, List.mem_cons_of_mem _ hv, hvp, hvc, hvd⟩

/-- Folding the old tile `t` puts a tile at `t`'s position into the result
carrying `t`'s visited flag and (when the guard is on) its markers. -/
theorem mergeUpdateFirst_establish (cn dn : Bool) (t : Tile) :
    ∀ acc acc2, mergeUpdateFirst cn dn t acc = some acc2 →
      ∃ u ∈ acc2, u.position = t.position ∧
        (t.visited = true → u.visited = true) ∧
        (cn = true → t.is_city = true → u.is_city = true) ∧
        (dn = true → t.is_go_down = true → u.is_go_down = true)
  | [], _, h => by simp [mergeUpdateFirst] at h
  | c :: rest, acc2, h => by
    unfold mergeUpdateFirst at h
    by_cases hcp : c.position = t.position
    · rw [if_pos hcp, Option.some.injEq] at h
      subst h
      refine ⟨_, List.mem_cons_self _ _, hcp, ?_, ?_, ?_⟩
      · intro hv; simp [hv]
      · intro hcn hc; simp [hcn, hc]
      · intro hdn hd; simp [hdn, hd]
    · rw [if_neg hcp] at h
      cases hrec : mergeUpdateFirst cn dn t rest with
      | none => rw [hrec] at h; exact absurd h (by simp)
      | some rest2 =>
        rw [hrec] at h
        simp only [Option.map_some', Option.some.injEq] at h
        subst h
        obtain ⟨u, hu, hup, huv, huc, hud⟩ :=
          mergeUpdateFirst_establish cn dn t rest rest2 hrec
        exact ⟨u, List.mem_cons_of_mem _ hu, hup, huv, huc, hud⟩

/-- `mergeStep` version of the monotonicity lemma. -/
theorem mergeStep_mono (cn dn : Bool) (acc : List Tile) (t : Tile) :
    ∀ v ∈ acc, ∃ u ∈ mergeStep cn dn acc t, u.position = v.position ∧
      (v.visited = true → u.visited = true) ∧
      (cn = true → v.is_city = true → u.is_city = true) ∧
      (dn = true → v.is_go_down = true → u.is_go_down = true) := by
  intro v hv
  unfold mergeStep
  cases hup : mergeUpdateFirst cn dn t acc with
  | some acc2 => exact mergeUpdateFirst_mono cn dn t acc acc2 hup v hv
  | none =>
    exact ⟨v, List.mem_append_left _ hv, rfl, fun h => h, fun _ h => h, fun _ h => h⟩

/-- `mergeStep` version of the origin lemma: a marker in the folded list with
the corresponding guard off comes from the accumulator, never from the pushed
old tile (whose marker is cleared). -/
theorem mergeStep_origin (cn dn : Bool) (acc : List Tile) (t : Tile) :
    ∀ u ∈ mergeStep cn dn acc t,
      (∃ v ∈ acc, v.position = u.position ∧
        (cn = false → u.is_city = v.is_city) ∧
        (dn = false → u.is_go_down = v.is_go_down)) ∨
      (u.position = t.position ∧ (cn = false → u.is_city = false) ∧
        (dn = false → u.is_go_down = false)) := by
  intro u hu
  unfold mergeStep at hu
  cases hup : mergeUpdateFirst cn dn t acc with
  | some acc2 =>
    rw [hup] at hu
    exact Or.inl (mergeUpdateFirst_origin cn dn t acc acc2 hup u hu)
  | none =>
    rw [hup] at hu
    rcases List.mem_append.1 hu with hu | hu
    · exact Or.inl ⟨u, hu, rfl, fun _ => rfl, fun _ => rfl⟩
    · simp only [List.mem_singleton] at hu
      subst hu
      refine Or.inr ⟨rfl, ?_, ?_⟩
      · intro hcn; simp [hcn]
      · intro hdn; simp [hdn]

/-- `mergeStep` version of the establishment lemma. -/
theorem mergeStep_establish (cn dn : Bool) (acc : List Tile) (t : Tile) :
    ∃ u ∈ mergeStep cn dn acc t, u.position = t.position ∧
      (t.visited = true → u.visited = true) ∧
      (cn = true → t.is_city = true → u.is_city = true) ∧
      (dn = true → t.is_go_down = true → u.is_go_down = true) := by
  unfold mergeStep
  cases hup : mergeUpdateFirst cn dn t acc with
  | some acc2 => exact mergeUpdateFirst_establish cn dn t acc acc2 hup
  | none =>
    refine ⟨_, List.mem_append_right _ (List.mem_singleton.2 rfl), rfl, ?_, ?_, ?_⟩
    · intro hv; exact hv
    · intro hcn hc; simp [hcn, hc]
    · intro hdn hd; simp [hdn, hd]

/-- Forgetting the visited flag commutes with reading the position. -/
theorem map_position_cv (l : List Tile) :
    (l.map clearTileVisited).map Tile.position = l.map Tile.position := by
  induction l with
  | nil => rfl
  | cons a l ih =>
    simp only [List.map_cons]
    rw [ih]
    rfl

/-- Folding an old tile whose position the accumulator already knows, and
whose markers are absent whenever the corresponding guard is on, changes the
accumulator only in visited flags. -/
theorem mergeUpdateFirst_cv (cn dn : Bool) (t : Tile)
    (hc : cn = true → t.is_city = false) (hd : dn = true → t.is_go_down = false) :
    ∀ acc, t.position ∈ acc.map Tile.position →
      ∃ acc2, mergeUpdateFirst cn dn t acc = some acc2 ∧
        acc2.map clearTileVisited = acc.map clearTileVisited
  | [], hmem => by simp at hmem
  | c :: rest, hmem => by
    unfold mergeUpdateFirst
    by_cases hcp : c.position = t.position
    · rw [if_pos hcp]
      refine ⟨_, rfl, ?_⟩
      have hc' : (if cn then t.is_city || c.is_city else c.is_city) = c.is_city := by
        cases cn with
        | false => rfl
        | true => simp [hc rfl]
      have hd' : (if dn then t.is_go_down || c.is_go_down else c.is_go_down)
          = c.is_go_down := by
        cases dn with
        | false => rfl
        | true => simp [hd rfl]
      simp only [List.map_cons]
      congr 1
      unfold clearTileVisited
      rw [hc', hd']
    · rw [if_neg hcp]
      have hmem' : t.position ∈ rest.map Tile.position := by
        rcases List.mem_cons.1 hmem with heq | hmem'
        · exact absurd heq.symm hcp
        · exact hmem'
      obtain ⟨rest2, hrec, hcv⟩ := mergeUpdateFirst_cv cn dn t hc hd rest hmem'
      rw [hrec]
      exact ⟨c :: rest2, rfl, by simp [hcv]⟩

/-- `mergeStep` version of the visited-only-change lemma. -/
theorem mergeStep_cv (cn dn : Bool) (t : Tile)
    (hc : cn = true → t.is_city = false) (hd : dn = true → t.is_go_down = false)
    (acc : List Tile) (hmem : t.position ∈ acc.map Tile.position) :
    (mergeStep cn dn acc t).map clearTileVisited = acc.map clearTileVisited := by
  obtain ⟨acc2, hup, hcv⟩ := mergeUpdateFirst_cv cn dn t hc hd acc hmem
  unfold mergeStep
  rw [hup]
  exact hcv

/-- C5: merge is idempotent modulo visited accumulation — merging a grid with
itself changes at most visited flags — and the visited flag is monotone
across merge: a tile visited in either input stays visited at its position in
the merged grid, and never flips from visited to unvisited. -/
theorem merge_idempotent_and_visited_monotone (g new old : State) :
    ((g.merge g).dungeon.tiles.map clearTileVisited
      = g.dungeon.tiles.map clearTileVisited) ∧
    (∀ t ∈ new.dungeon.tiles, t.visited = true →
      ∃ u ∈ (new.merge old).dungeon.tiles,
        u.position = t.position ∧ u.visited = true) ∧
    (∀ t ∈ old.dungeon.tiles, t.visited = true →
      ∃ u ∈ (new.merge old).dungeon.tiles,
        u.position = t.position ∧ u.visited = true) := by
  refine ⟨?_, ?_, ?_⟩
  · refine foldl_invariant _
      (fun acc => acc.map clearTileVisited
        = g.dungeon.tiles.map clearTileVisited)
      g.dungeon.tiles g.dungeon.tiles ?_ rfl
    intro acc t hmem hP
    rw [← hP]
    apply mergeStep_cv
    · intro hcn
      have hnone := Option.isNone_iff_eq_none.1 hcn
      rw [List.find?_eq_none] at hnone
      simpa using hnone t hmem
    · intro hdn
      have hnone := Option.isNone_iff_eq_none.1 hdn
      rw [List.find?_eq_none] at hnone
      simpa using hnone t hmem
    · rw [← map_position_cv acc, hP, map_position_cv]
      exact List.mem_map_of_mem Tile.position hmem
  · intro t hmem hv
    refine foldl_invariant _
      (fun acc => ∃ u ∈ acc, u.position = t.position ∧ u.visited = true)
      old.dungeon.tiles new.dungeon.tiles ?_ ⟨t, hmem, rfl, hv⟩
    rintro acc t' _ ⟨u, hu, hup, huv⟩
    obtain ⟨u', hu', hup', huv', _, _⟩ := mergeStep_mono _ _ acc t' u hu
    exact ⟨u', hu', hup'.trans hup, huv' huv⟩
  · intro t hmem hv
    refine foldl_mem_establish _
      (fun acc => ∃ u ∈ acc, u.position = t.position ∧ u.visited = true)
      ?_ t ?_ old.dungeon.tiles new.dungeon.tiles hmem
    · rintro acc t' ⟨u, hu, hup, huv⟩
      obtain ⟨u', hu', hup', huv', _, _⟩ := mergeStep_mono _ _ acc t' u hu
      exact ⟨u', hu', hup'.trans hup, huv' huv⟩
    · intro acc
      obtain ⟨u, hu, hup, huv, _, _⟩ := mergeStep_establish _ _ acc t
      exact ⟨u, hu, hup, huv hv⟩

/-- C5 witness: merge idempotence and visited monotonicity on a concrete pair
of grids whose visited flags disagree per position. -/
theorem merge_idempotent_and_visited_monotone_witness :
    ((stateC5.merge stateC5).dungeon.tiles.map clearTileVisited
      = stateC5.dungeon.tiles.map clearTileVisited) ∧
    (∀ t ∈ stateC5.dungeon.tiles, t.visited = true →
      ∃ u ∈ (stateC5.merge oldStateC5).dungeon.tiles,
        u.position = t.position ∧ u.visited = true) ∧
    (∀ t ∈ oldStateC5.dungeon.tiles, t.visited = true →
      ∃ u ∈ (stateC5.merge oldStateC5).dungeon.tiles,
        u.position = t.position ∧ u.visited = true) :=
  merge_idempotent_and_visited_monotone stateC5 stateC5 oldStateC5

/-- C6: merge propagates a city (respectively staircase-down) marker from the
old grid only when the new grid carries none: with a marker already in the
new grid, every marker in the merged grid traces back to a new-grid tile at
the same position (old markers outside the window are cleared and markers
inside are not ORed in); without one, an old marker survives into the merged
grid at its position. -/
theorem merge_marker_propagation (new old : State) :
    ((∃ c ∈ new.dungeon.tiles, c.is_city = true) →
      ∀ t ∈ (new.merge old).dungeon.tiles, t.is_city = true →
        ∃ u ∈ new.dungeon.tiles, u.position = t.position ∧ u.is_city = true) ∧
    ((∀ c ∈ new.dungeon.tiles, ¬ c.is_city = true) →
      ∀ t ∈ old.dungeon.tiles, t.is_city = true →
        ∃ u ∈ (new.merge old).dungeon.tiles,
          u.position = t.position ∧ u.is_city = true) ∧
    ((∃ c ∈ new.dungeon.tiles, c.is_go_down = true) →
      ∀ t ∈ (new.merge old).dungeon.tiles, t.is_go_down = true →
        ∃ u ∈ new.dungeon.tiles, u.position = t.position ∧ u.is_go_down = true) ∧
    ((∀ c ∈ new.dungeon.tiles, ¬ c.is_go_down = true) →
      ∀ t ∈ old.dungeon.tiles, t.is_go_down = true →
        ∃ u ∈ (new.merge old).dungeon.tiles,
          u.position = t.position ∧ u.is_go_down = true) := by
  refine ⟨?_, ?_, ?_, ?_⟩
  · rintro ⟨c, hcmem, hcity⟩
    have hcn : (new.dungeon.tiles.find? (fun tile => tile.is_city)).isNone = false := by
      cases hf : new.dungeon.tiles.find? (fun tile => tile.is_city) with
      | none =>
        rw [List.find?_eq_none] at hf
        exact absurd hcity (hf c hcmem)
      | some c' => rfl
    show ∀ t ∈ old.dungeon.tiles.foldl (mergeStep _ _) new.dungeon.tiles, _
    rw [hcn]
    intro t hmem hcity'
    revert t
    refine foldl_invariant _
      (fun acc => ∀ u ∈ acc, u.is_city = true →
        ∃ v ∈ new.dungeon.tiles, v.position = u.position ∧ v.is_city = true)
      old.dungeon.tiles new.dungeon.tiles ?_
      (fun u hu huc => ⟨u, hu, rfl, huc⟩)
    intro acc t' _ hP u hu huc
    rcases mergeStep_origin false _ acc t' u hu with ⟨v, hv, hvp, hvc, _⟩ | ⟨_, hc0, _⟩
    · obtain ⟨w, hw, hwp, hwc⟩ := hP v hv ((hvc rfl).symm.trans huc)
      exact ⟨w, hw, hwp.trans hvp, hwc⟩
    · exact absurd huc (by simp [hc0 rfl])
  · intro hnone t hmem hcity
    have hcn : (new.dungeon.tiles.find? (fun tile => tile.is_city)).isNone = true := by
      rw [List.find?_eq_none.2 (fun c hc => by simpa using hnone c hc)]
      rfl
    show ∃ u ∈ old.dungeon.tiles.foldl (mergeStep _ _) new.dungeon.tiles, _
    rw [hcn]
    refine foldl_mem_establish _
      (fun acc => ∃ u ∈ acc, u.position = t.position ∧ u.is_city = true)
      ?_ t ?_ old.dungeon.tiles new.dungeon.tiles hmem
    · rintro acc t' ⟨u, hu, hup, huc⟩
      obtain ⟨u', hu', hup', _, huc', _⟩ := mergeStep_mono true _ acc t' u hu
      exact ⟨u', hu', hup'.trans hup, huc' rfl huc⟩
    · intro acc
      obtain ⟨u, hu, hup, _, huc, _⟩ := mergeStep_establish true _ acc t
      exact ⟨u, hu, hup, huc rfl hcity⟩
  · rintro ⟨c, hcmem, hdown⟩
    have hdn : (new.dungeon.tiles.find? (fun tile => tile.is_go_down)).isNone = false := by
      cases hf : new.dungeon.tiles.find? (fun tile => tile.is_go_down) with
      | none =>
        rw [List.find?_eq_none] at hf
        exact absurd hdown (hf c hcmem)
      | some c' => rfl
    show ∀ t ∈ old.dungeon.tiles.foldl (mergeStep _ _) new.dungeon.tiles, _
    rw [hdn]
    intro t hmem hdown'
    revert t
    refine foldl_invariant _
      (fun acc => ∀ u ∈ acc, u.is_go_down = true →
        ∃ v ∈ new.dungeon.tiles, v.position = u.position ∧ v.is_go_down = true)
      old.dungeon.tiles new.dungeon.tiles ?_
      (fun u hu hud => ⟨u, hu, rfl, hud⟩)
    intro acc t' _ hP u hu hud
    rcases mergeStep_origin _ false acc t' u hu with ⟨v, hv, hvp, _, hvd⟩ | ⟨_, _, hd0⟩
    · obtain ⟨w, hw, hwp, hwd⟩ := hP v hv ((hvd rfl).symm.trans hud)
      exact ⟨w, hw, hwp.trans hvp, hwd⟩
    · exact absurd hud (by simp [hd0 rfl])
  · intro hnone t hmem hdown
    have hdn : (new.dungeon.tiles.find? (fun tile => tile.is_go_down)).isNone = true := by
      rw [List.find?_eq_none.2 (fun c hc => by simpa using hnone c hc)]
      rfl
    show ∃ u ∈ old.dungeon.tiles.foldl (mergeStep _ _) new.dungeon.tiles, _
    rw [hdn]
    refine foldl_mem_establish _
      (fun acc => ∃ u ∈ acc, u.position = t.position ∧ u.is_go_down = true)
      ?_ t ?_ old.dungeon.tiles new.dungeon.tiles hmem
    · rintro acc t' ⟨u, hu, hup, hud⟩
      obtain ⟨u', hu', hup', _, _, hud'⟩ := mergeStep_mono _ true acc t' u hu
      exact ⟨u', hu', hup'.trans hup, hud' rfl hud⟩
    · intro acc
      obtain ⟨u, hu, hup, _, _, hud⟩ := mergeStep_establish _ true acc t
      exact ⟨u, hu, hup, hud rfl hdown⟩

/-- C6 witness: markers on a concrete pair of grids — the new grid already
has a city tile (so the old stale city marker is not propagated), and has no
staircase tile (so the old staircase marker is kept). -/
theorem merge_marker_propagation_witness :
    ((∃ c ∈ stateC6.dungeon.tiles, c.is_city = true) →
      ∀ t ∈ (stateC6.merge oldStateC6).dungeon.tiles, t.is_city = true →
        ∃ u ∈ stateC6.dungeon.tiles, u.position = t.position ∧ u.is_city = true) ∧
    ((∀ c ∈ stateC6.dungeon.tiles, ¬ c.is_city = true) →
      ∀ t ∈ oldStateC6.dungeon.tiles, t.is_city = true →
        ∃ u ∈ (stateC6.merge oldStateC6).dungeon.tiles,
          u.position = t.position ∧ u.is_city = true) ∧
    ((∃ c ∈ stateC6.dungeon.tiles, c.is_go_down = true) →
      ∀ t ∈ (stateC6.merge oldStateC6).dungeon.tiles, t.is_go_down = true →
        ∃ u ∈ stateC6.dungeon.tiles, u.position = t.position ∧ u.is_go_down = true) ∧
    ((∀ c ∈ stateC6.dungeon.tiles, ¬ c.is_go_down = true) →
      ∀ t ∈ oldStateC6.dungeon.tiles, t.is_go_down = true →
        ∃ u ∈ (stateC6.merge oldStateC6).dungeon.tiles,
          u.position = t.position ∧ u.is_go_down = true) :=
  merge_marker_propagation stateC6 oldStateC6

/-- Membership in the concatenated successors of a list of coordinates. -/
theorem mem_successorsOfAll (d : Dungeon) :
    ∀ (l : List Coords) (q : Coords),
      q ∈ d.successorsOfAll l ↔ ∃ p ∈ l, q ∈ d.unvisited_successors p := by
  intro l
  induction l with
  | nil => simp [Dungeon.successorsOfAll]
  | cons p l ih =>
    intro q
    simp [Dungeon.successorsOfAll, List.mem_append, ih]

/-- One saturation round only grows the reached set. -/
theorem closureStep_subset (d : Dungeon) (seen : List Coords) :
    seen ⊆ d.closureStep seen :=
  List.subset_append_left _ _

/-- Saturation rounds only grow the reached set. -/
theorem closureIter_subset (d : Dungeon) :
    ∀ (n : Nat) (seen : List Coords), seen ⊆ d.closureIter n seen
  | 0, _ => fun _ h => h
  | n + 1, seen =>
    fun _ h => closureIter_subset d n (d.closureStep seen)
      (closureStep_subset d seen h)

/-- One saturation round preserves distinctness of the reached set. -/
theorem closureStep_nodup (d : Dungeon) (seen : List Coords)
    (hnd : seen.Nodup) : (d.closureStep seen).Nodup := by
  unfold Dungeon.closureStep
  refine List.Nodup.append hnd ((List.nodup_dedup _).filter _) ?_
  intro a ha hax
  have := (List.mem_filter.1 hax).2
  simp at this
  exact this ha

/-- A saturation fixpoint absorbs all further rounds. -/
theorem closureStep_fixed (d : Dungeon) (seen : List Coords)
    (hfix : d.closureStep seen = seen) :
    ∀ n, d.closureIter n seen = seen
  | 0 => rfl
  | n + 1 => by
    show d.closureIter n (d.closureStep seen) = seen
    rw [hfix]
    exact closureStep_fixed d seen hfix n

/-- A non-fixpoint round strictly grows the reached set. -/
theorem closureStep_ne_grow (d : Dungeon) (seen : List Coords)
    (hne : ¬ d.closureStep seen = seen) :
    seen.length < (d.closureStep seen).length := by
  unfold Dungeon.closureStep at hne ⊢
  cases hx : ((d.successorsOfAll
      (seen.filter (fun p => (d.get_tile p.x p.y).visited))).dedup.filter
    (fun q => decide (¬ q ∈ seen))) with
  | nil =>
    exfalso
    rw [hx] at hne
    simp at hne
  | cons a l => simp [List.length_append]

/-- Every coordinate a saturation round reaches is graph-reachable. -/
theorem closureStep_sound (d : Dungeon) (start : Coords) (seen : List Coords)
    (hsound : ∀ p ∈ seen, Reaches d start p) :
    ∀ q ∈ d.closureStep seen, Reaches d start q := by
  intro q hq
  rcases List.mem_append.1 hq with hq | hq
  · exact hsound q hq
  · have hq' := (List.mem_filter.1 hq).1
    have hq'' := List.mem_dedup.1 hq'
    obtain ⟨p, hp, hstep⟩ := (mem_successorsOfAll d _ q).1 hq''
    exact Reaches.step (hsound p (List.mem_filter.1 hp).1) hstep

/-- Every coordinate the iterated saturation reaches is graph-reachable. -/
theorem closureIter_sound (d : Dungeon) (start : Coords) :
    ∀ (n : Nat) (seen : List Coords), (∀ p ∈ seen, Reaches d start p) →
      ∀ q ∈ d.closureIter n seen, Reaches d start q
  | 0, _, hsound => hsound
  | n + 1, seen, hsound =>
    closureIter_sound d start n (d.closureStep seen)
      (closureStep_sound d start seen hsound)

/-- A coordinate whose tile is visited is a stored tile position (the
synthetic fallback tile is never visited). -/
theorem visited_mem_positions (d : Dungeon) (p : Coords)
    (h : (d.get_tile p.x p.y).visited = true) :
    p ∈ d.tiles.map Tile.position := by
  unfold Dungeon.get_tile at h
  cases hf : d.tiles.find? (fun t => decide (t.position.x = p.x ∧ t.position.y = p.y)) with
  | none => rw [hf] at h; exact absurd h (by simp)
  | some t =>
    rw [hf] at h
    have hpred := List.find?_some hf
    simp only [decide_eq_true_eq] at hpred
    have hpos : t.position = p := by
      obtain ⟨hx, hy⟩ := hpred
      have h2 : t.position = ⟨p.x, p.y⟩ := by rw [← hx, ← hy]
      exact h2
    rw [← hpos]
    exact List.mem_map_of_mem Tile.position (List.mem_of_find?_eq_some hf)

/-- A distinct list of coordinates whose tiles are all visited is no longer
than the stored tile list. -/
theorem visited_seen_length_le (d : Dungeon) (seen : List Coords)
    (hnd : seen.Nodup)
    (hvis : ∀ p ∈ seen, (d.get_tile p.x p.y).visited = true) :
    seen.length ≤ d.tiles.length := by
  have hsub : seen ⊆ d.tiles.map Tile.position :=
    fun p hp => visited_mem_positions d p (hvis p hp)
  calc seen.length = seen.toFinset.card := (List.toFinset_card_of_nodup hnd).symm
    _ ≤ (d.tiles.map Tile.position).toFinset.card := by
        apply Finset.card_le_card
        intro a ha
        exact List.mem_toFinset.2 (hsub (List.mem_toFinset.1 ha))
    _ ≤ (d.tiles.map Tile.position).length := List.toFinset_card_le _
    _ = d.tiles.length := List.length_map _ _

/-- With `|tiles| + 2` rounds the saturation provably reaches a fixpoint
whenever every coordinate it collects is visited (a pigeonhole on the visited
tile positions). -/
theorem closureIter_closed (d : Dungeon) :
    ∀ (fuel : Nat) (seen : List Coords), seen.Nodup →
      (∀ p ∈ d.closureIter fuel seen, (d.get_tile p.x p.y).visited = true) →
      d.tiles.length + 1 < seen.length + fuel →
      d.closureStep (d.closureIter fuel seen) = d.closureIter fuel seen
  | 0, seen, hnd, hvis, hbound => by
    exfalso
    have := visited_seen_length_le d seen hnd hvis
    omega
  | fuel + 1, seen, hnd, hvis, hbound => by
    by_cases hfix : d.closureStep seen = seen
    · have hiter : d.closureIter (fuel + 1) seen = seen :=
        closureStep_fixed d seen hfix (fuel + 1)
      rw [hiter]
      exact hfix
    · have hgrow := closureStep_ne_grow d seen hfix
      have hiter : d.closureIter (fuel + 1) seen
          = d.closureIter fuel (d.closureStep seen) := rfl
      rw [hiter]
      refine closureIter_closed d fuel (d.closureStep seen)
        (closureStep_nodup d seen hnd) ?_ (by omega)
      rw [← hiter]
      exact hvis

/-- At a saturation fixpoint the reached set is closed under successors of
its visited members. -/
theorem closureStep_fixed_closed (d : Dungeon) (seen : List Coords)
    (hfix : d.closureStep seen = seen) :
    ∀ p ∈ seen, (d.get_tile p.x p.y).visited = true →
      ∀ q ∈ d.unvisited_successors p, q ∈ seen := by
  intro p hp hvp q hq
  by_cases hnq : q ∈ seen
  · exact hnq
  · exfalso
    have hqX : q ∈ ((d.successorsOfAll
        (seen.filter (fun r => (d.get_tile r.x r.y).visited))).dedup.filter
      (fun r => decide (¬ r ∈ seen))) := by
      refine List.mem_filter.2 ⟨?_, by simpa using hnq⟩
      exact List.mem_dedup.2 ((mem_successorsOfAll d _ q).2
        ⟨p, List.mem_filter.2 ⟨hp, by simp [hvp]⟩, hq⟩)
    have hmem : q ∈ d.closureStep seen := List.mem_append_right _ hqX
    rw [hfix] at hmem
    exact hnq hmem

/-- C7: the nearest-unvisited search returns none if and only if every tile
reachable from the start tile — under the current per-tile passability flags,
never-sampled coordinates being fully passable and unvisited per the
`get_tile` fallback — is already visited. -/
theorem closest_unvisited_none_iff (d : Dungeon) (current_tile : Tile) :
    d.get_closest_unvisited_tile current_tile = none ↔
      ∀ p, Reaches d current_tile.position p →
        (d.get_tile p.x p.y).visited = true := by
  unfold Dungeon.get_closest_unvisited_tile
  rw [Option.map_eq_none', List.find?_eq_none]
  constructor
  · intro hall p hreach
    have hvis : ∀ q ∈ d.closureIter (d.tiles.length + 2) [current_tile.position],
        (d.get_tile q.x q.y).visited = true := by
      intro q hq
      have := hall q hq
      simpa using this
    have hclosed := closureIter_closed d (d.tiles.length + 2)
      [current_tile.position] (List.nodup_singleton _) hvis (by simp; omega)
    have hmem : p ∈ d.closureIter (d.tiles.length + 2) [current_tile.position] := by
      induction hreach with
      | refl =>
        exact closureIter_subset d _ _ (List.mem_singleton.2 rfl)
      | step hr hsq ih =>
        exact closureStep_fixed_closed d _ hclosed _ ih (hvis _ ih) _ hsq
    exact hvis p hmem
  · intro hall q hq
    have hreach : Reaches d current_tile.position q :=
      closureIter_sound d current_tile.position _ _
        (fun p hp => by
          rw [List.mem_singleton.1 hp]
          exact Reaches.refl) q hq
    simp [hall q hreach]

/-- C7 witness: the characterization instantiated on a concrete dungeon with
a reachable unvisited dead end. -/
theorem closest_unvisited_none_iff_witness :
    dungeonC7.get_closest_unvisited_tile
        { walledTile 5 5 with east_passable := true } = none ↔
      ∀ p, Reaches dungeonC7
          ({ walledTile 5 5 with east_passable := true } : Tile).position p →
        (dungeonC7.get_tile p.x p.y).visited = true :=
  closest_unvisited_none_iff dungeonC7 { walledTile 5 5 with east_passable := true }

end Endorbot
